import Mathlib

/-
  A shallow embedding of `src/http_response.rs` of the async_uws repository
  (the `HttpResponse<SSL>` connection handle, its write/end/upgrade
  operations and the default upgrade path), plus a model of the type-keyed
  data storage whose implementation file (`src/data_storage.rs`) is not in
  the shown sources and is therefore modelled from the spec.

  Conventions of the embedding:
  - Rust panics (`unwrap` / `expect`) are modelled as `Except.error` with the
    panic message; a normal return is `Except.ok`.
  - The `Arc<AtomicBool>` abort flag is modelled as the boolean value the
    single `load` in `upgrade` observes; the program under consideration
    reads it exactly once per operation, so a sequential model suffices.
  - `loop_defer` dispatch is modelled by recording the deferred closure's
    captured data (`UpgradeDispatch`, `EndDispatch.callbackRun`) instead of
    running it; `dispatched = none` means `loop_defer` was never invoked.
  - The `SSL` const generic parameter does not influence any of the modelled
    control flow and is omitted.
  - Tokio channel endpoints carry no observable data at this level and are
    modelled as `Unit` markers (the `stream` field keeps its `Option`
    wrapper, mirroring `stream: Some(stream)` in the source).
-/

namespace AsyncUws

/-- The native `HttpResponseStruct` handle, abstracted to the one observation
the embedded code makes of it: `has_responded()`. -/
structure NativeResponse where
  has_responded : Bool
deriving DecidableEq

/-- The native event loop handle (`UwsLoop`), an opaque token. -/
structure UwsLoop where
  loopId : Nat
deriving DecidableEq

/-- The native `UpgradeContext`, an opaque token. -/
structure UpgradeContext where
  ctxId : Nat
deriving DecidableEq

/-- Modelled from the spec: the implementation file `src/data_storage.rs`
(`DataStorage` / `SharedDataStorage`, called TypedStorage in the spec) is not
among the shown sources.  Spec: "mapping from type identity to one opaque
value of that type; insertion overwrites any prior value of the same type;
retrieval by type returns a typed reference or an absent result".  Type
identities are indexed by `Nat`; `V t` is the Lean type carried by type
identity `t`; an entry is a dependent pair of a type identity and a value of
that type. -/
abbrev TypedStorage (V : Nat → Type) : Type := List (Sigma V)

/-- Modelled from the spec: `insert<T>(value)` — at most one value per type,
inserting the same type again discards the previous value. -/
def TypedStorage.insert {V : Nat → Type} (s : TypedStorage V) (x : Sigma V) :
    TypedStorage V :=
  x :: List.filter (fun y => y.1 != x.1) s

/-- Modelled from the spec: `get<T>() -> Option<&T>` — retrieval by type
identity, a checked downcast that yields absence rather than a fault. -/
def TypedStorage.get {V : Nat → Type} : TypedStorage V → (t : Nat) → Option (V t)
  | [], _ => none
  | ⟨tx, vx⟩ :: rest, t =>
    if h : tx = t then some (h ▸ vx) else TypedStorage.get rest t

/-- The value family of the storages used by `HttpResponse`: the stored
values are opaque at this level, so every type identity carries `Nat`. -/
abbrev V0 : Nat → Type := fun _ => Nat

/-- `SharedDataStorage` of `src/data_storage.rs` (spec-modelled, see
`TypedStorage`). -/
abbrev SharedDataStorage := TypedStorage V0

/-- `WsPerSocketUserData` of `src/ws_behavior.rs` (fields as constructed in
`HttpResponse::upgrade`; the Rust `storage` field is an aliasing
`Arc`-reference back to the containing registry and is not representable as a
value, so it is omitted from the record — the registry itself is threaded
explicitly through `upgrade`). -/
structure WsPerSocketUserData where
  sink : Unit
  id : String
  stream : Option Unit
  is_open : Bool
  shared_data_storage : SharedDataStorage
  custom_user_data : SharedDataStorage

/-- `WsPerSocketUserDataStorage`: the per-socket registry,
`HashMap<String, Box<WsPerSocketUserData>>` behind a mutex, modelled as an
association list whose first binding for a key is the current one. -/
abbrev WsPerSocketUserDataStorage := List (String × WsPerSocketUserData)

/-- `HashMap::insert`: the new binding replaces any previous binding of the
same key. -/
def registryInsert (s : WsPerSocketUserDataStorage) (k : String)
    (v : WsPerSocketUserData) : WsPerSocketUserDataStorage :=
  (k, v) :: List.filter (fun p => p.1 != k) s

/-- The inbound `HttpRequest` (from uwebsockets_rs): a header list plus URL. -/
structure HttpRequest where
  headers : List (String × String)
  full_url : String

/-- `HttpRequest::get_header`: first header whose name matches. -/
def HttpRequest.get_header (req : HttpRequest) (key : String) : Option String :=
  (List.find? (fun p => p.1 == key) req.headers).map Prod.snd

/-- `HttpResponse<SSL>` of `src/http_response.rs`: the task-side connection
handle. -/
structure HttpResponse where
  native : Option NativeResponse
  uws_loop : UwsLoop
  is_aborted : Bool
  data_storage : SharedDataStorage
  per_socket_data_storage : Option WsPerSocketUserDataStorage
  upgrade_context : Option UpgradeContext

/-- `HttpResponse::new`. -/
def HttpResponse.new (native_response : NativeResponse) (uws_loop : UwsLoop)
    (is_aborted : Bool) (data_storage : SharedDataStorage)
    (per_socket_data_storage : Option WsPerSocketUserDataStorage)
    (upgrade_context : Option UpgradeContext) : HttpResponse :=
  { native := some native_response
    is_aborted := is_aborted
    uws_loop := uws_loop
    data_storage := data_storage
    per_socket_data_storage := per_socket_data_storage
    upgrade_context := upgrade_context }

/-- `HttpResponse::data::<T>`: lookup in the shared storage by type
identity. -/
def HttpResponse.data (self : HttpResponse) (t : Nat) : Option (V0 t) :=
  TypedStorage.get self.data_storage t

/-- The observable outcome of `HttpResponse::end`: which loop the closure was
deferred onto, and what the deferred closure does when it runs —
`self.native.take().unwrap()` followed by `res.end(data, close_connection)`,
so it either consumes the native handle with those arguments or panics on a
`None` native field. -/
structure EndDispatch where
  uws_loop : UwsLoop
  callbackRun : Except String (NativeResponse × Option String × Bool)

/-- `HttpResponse::end` (named `end_response` here because `end` is a Lean
keyword).  The method consumes `self`, spawns a task and unconditionally
defers a closure that takes the native handle and ends the response. -/
def HttpResponse.end_response (self : HttpResponse) (data : Option String)
    (close_connection : Bool) : EndDispatch :=
  { uws_loop := self.uws_loop
    callbackRun :=
      match self.native with
      | some res => Except.ok (res, data, close_connection)
      | none => Except.error "called Option::unwrap() on a None value" }

/-- A call performed on the native response handle by the write helpers. -/
inductive NativeCall where
  | writeStatus (status : String)
  | writeHeader (key : String) (value : String)
  | writeHeaderInt (key : String) (value : Nat)
  | endWithoutBody (close_connection : Bool)
deriving DecidableEq

/-- `HttpResponse::write_status`: `&self` method — returns the unchanged
handle together with the list of native calls it performed. -/
def HttpResponse.write_status (self : HttpResponse) (status : String) :
    HttpResponse × List NativeCall :=
  match self.native with
  | some _ => (self, [NativeCall.writeStatus status])
  | none => (self, [])

/-- `HttpResponse::write_header`. -/
def HttpResponse.write_header (self : HttpResponse) (key : String)
    (value : String) : HttpResponse × List NativeCall :=
  match self.native with
  | some _ => (self, [NativeCall.writeHeader key value])
  | none => (self, [])

/-- `HttpResponse::write_header_int`. -/
def HttpResponse.write_header_int (self : HttpResponse) (key : String)
    (value : Nat) : HttpResponse × List NativeCall :=
  match self.native with
  | some _ => (self, [NativeCall.writeHeaderInt key value])
  | none => (self, [])

/-- `HttpResponse::end_without_body`. -/
def HttpResponse.end_without_body (self : HttpResponse)
    (close_connection : Bool) : HttpResponse × List NativeCall :=
  match self.native with
  | some _ => (self, [NativeCall.endWithoutBody close_connection])
  | none => (self, [])

/-- `HttpResponse::has_responded`: asks the native handle while it is still
present, and returns `true` unconditionally once it has been consumed. -/
def HttpResponse.has_responded (self : HttpResponse) : Bool :=
  match self.native with
  | some response => response.has_responded
  | none => true

/-- The data captured by the closure `upgrade` defers with `loop_defer`: the
handshake arguments together with the moved `self.native` and
`self.upgrade_context` (both unwrapped only when the closure later runs on
the loop thread). -/
structure UpgradeDispatch where
  ws_key_string : String
  ws_protocol : Option String
  ws_extensions : Option String
  native : Option NativeResponse
  upgrade_context : Option UpgradeContext

/-- The registry- and abort-flag-touching steps of `upgrade`, in the order
the source performs them. -/
inductive UpgradeEvent where
  | insertEntry (key : String)
  | readAbort (value : Bool)
  | logAborted
  | deferUpgrade (key : String)
deriving DecidableEq

/-- What a completed (non-panicking) run of `HttpResponse::upgrade` did: the
registry it leaves behind, the ordered trace of its registry/abort steps,
the closure it deferred (if any), and what it printed. -/
structure UpgradeResult where
  registry : WsPerSocketUserDataStorage
  events : List UpgradeEvent
  dispatched : Option UpgradeDispatch
  logged : List String

/-- `HttpResponse::upgrade`, line for line:
channel creation, `per_socket_data_storage.clone().unwrap()` (panic when
`None`), construction of `WsPerSocketUserData`, registry insertion, the
`SeqCst` load of the abort flag, the early return with a log line when
aborted, and otherwise the `loop_defer` of the native upgrade closure. -/
def HttpResponse.upgrade (self : HttpResponse) (ws_key_string : String)
    (ws_protocol : Option String) (ws_extensions : Option String)
    (user_data : Option SharedDataStorage) : Except String UpgradeResult :=
  let user_data_id := ws_key_string
  match self.per_socket_data_storage with
  | none => Except.error "called Option::unwrap() on a None value"
  | some ws_per_socket_data_storage =>
    let ud : WsPerSocketUserData :=
      { sink := ()
        id := user_data_id
        stream := some ()
        is_open := true
        shared_data_storage := self.data_storage
        custom_user_data := user_data.getD [] }
    let storage := registryInsert ws_per_socket_data_storage user_data_id ud
    let is_aborted := self.is_aborted
    if is_aborted then
      Except.ok
        { registry := storage
          events := [UpgradeEvent.insertEntry user_data_id,
                     UpgradeEvent.readAbort true, UpgradeEvent.logAborted]
          dispatched := none
          logged := ["[async_uws] Upgrade request is aborted"] }
    else
      Except.ok
        { registry := storage
          events := [UpgradeEvent.insertEntry user_data_id,
                     UpgradeEvent.readAbort false,
                     UpgradeEvent.deferUpgrade user_data_id]
          dispatched := some
            { ws_key_string := ws_key_string
              ws_protocol := ws_protocol
              ws_extensions := ws_extensions
              native := self.native
              upgrade_context := self.upgrade_context }
          logged := [] }

/-- `HttpResponse::default_upgrade`: extract `sec-websocket-key` with
`expect` (panic when absent), the two optional headers with `map`, and call
`upgrade` with no user data. -/
def HttpResponse.default_upgrade (req : HttpRequest) (res : HttpResponse) :
    Except String UpgradeResult :=
  match HttpRequest.get_header req "sec-websocket-key" with
  | none => Except.error "[async_uws]: There is no sec-websocket-key in req headers"
  | some ws_key_string =>
    res.upgrade ws_key_string
      (HttpRequest.get_header req "sec-websocket-protocol")
      (HttpRequest.get_header req "sec-websocket-extensions")
      none

/-- Folding a sequence of insertions into a typed storage, oldest first. -/
def insertAll {V : Nat → Type} (s : TypedStorage V) (ops : List (Sigma V)) :
    TypedStorage V :=
  ops.foldl (fun st x => TypedStorage.insert st x) s

/-- The value of type identity `t` inserted last by `ops` (oldest-first),
if any: the intended observable of last-insert-wins. -/
def lastOfType {V : Nat → Type} : List (Sigma V) → (t : Nat) → Option (V t)
  | [], _ => none
  | x :: rest, t =>
    match lastOfType rest t with
    | some v => some v
    | none => if h : x.1 = t then some (h ▸ x.2) else none

/-! ## Helper lemmas about the typed storage -/

theorem TypedStorage.get_filter_ne {V : Nat → Type} (s : TypedStorage V)
    (k t : Nat) (hne : k ≠ t) :
    TypedStorage.get (List.filter (fun y => y.1 != k) s) t =
      TypedStorage.get s t := by
  induction s with
  | nil => rfl
  | cons y rest ih =>
    obtain ⟨ty, vy⟩ := y
    by_cases h : ty = k
    · subst h
      simp [List.filter_cons, TypedStorage.get, hne, ih]
    · simp [List.filter_cons, TypedStorage.get, bne_iff_ne, h, ih]

theorem TypedStorage.get_insert {V : Nat → Type} (s : TypedStorage V)
    (x : Sigma V) (t : Nat) :
    TypedStorage.get (TypedStorage.insert s x) t =
      if h : x.1 = t then some (h ▸ x.2) else TypedStorage.get s t := by
  obtain ⟨tx, vx⟩ := x
  rw [TypedStorage.insert, TypedStorage.get]
  by_cases h : tx = t
  · simp [h]
  · simp only [h, dite_false]
    exact TypedStorage.get_filter_ne s tx t h

theorem TypedStorage.get_insertAll {V : Nat → Type} (s : TypedStorage V)
    (ops : List (Sigma V)) (t : Nat) :
    TypedStorage.get (insertAll s ops) t =
      match lastOfType ops t with
      | some v => some v
      | none => TypedStorage.get s t := by
  induction ops generalizing s with
  | nil => rfl
  | cons x rest ih =>
    rw [show insertAll s (x :: rest) = insertAll (TypedStorage.insert s x) rest
          from rfl,
        ih, lastOfType]
    cases hrest : lastOfType rest t with
    | some v => rfl
    | none =>
      rw [TypedStorage.get_insert]
      by_cases h : x.1 = t <;> simp [h]

theorem lastOfType_eq_none {V : Nat → Type} (ops : List (Sigma V)) (t : Nat)
    (h : ∀ x ∈ ops, x.1 ≠ t) : lastOfType ops t = none := by
  induction ops with
  | nil => rfl
  | cons x rest ih =>
    rw [lastOfType, ih (fun y hy => h y (List.mem_cons_of_mem x hy))]
    simp [h x (List.mem_cons_self x rest)]

theorem lookup_registryInsert (s : WsPerSocketUserDataStorage) (k : String)
    (v : WsPerSocketUserData) :
    List.lookup k (registryInsert s k v) = some v := by
  simp [registryInsert, List.lookup]

/-! ## Claim theorems -/

/-- Claim C1 (corrected), counterexample: at a concrete request whose headers
lack `sec-websocket-key`, `default_upgrade` panics (the `expect` fires,
modelled as `Except.error` with the panic message) — contradicting the
claim that the upgrade fails with a handshake error and "no panic occurs". -/
theorem default_upgrade_missing_key_cex :
    HttpRequest.get_header ⟨[("host", "example")], "/ws"⟩ "sec-websocket-key"
      = none ∧
    HttpResponse.default_upgrade ⟨[("host", "example")], "/ws"⟩
        ⟨some ⟨false⟩, ⟨0⟩, false, [], some [], some ⟨0⟩⟩
      = Except.error
          "[async_uws]: There is no sec-websocket-key in req headers" :=
  ⟨rfl, rfl⟩

/-- Claim C1 (amended): for every inbound request lacking the
`sec-websocket-key` header, `default_upgrade` does not proceed with the
upgrade (no native upgrade is dispatched, no registry entry is made), but it
fails by panicking via `expect` with the message
"[async_uws]: There is no sec-websocket-key in req headers" rather than by a
non-crashing handshake error. -/
theorem default_upgrade_missing_key_panics (req : HttpRequest)
    (res : HttpResponse)
    (h : HttpRequest.get_header req "sec-websocket-key" = none) :
    HttpResponse.default_upgrade req res =
      Except.error "[async_uws]: There is no sec-websocket-key in req headers" := by
  rw [HttpResponse.default_upgrade, h]

/-- Claim C1 (amended), witness at a concrete header list without the key. -/
theorem default_upgrade_missing_key_panics_witness :
    HttpResponse.default_upgrade ⟨[("content-length", "0")], "/chat"⟩
        ⟨some ⟨false⟩, ⟨1⟩, false, [], some [], some ⟨1⟩⟩
      = Except.error
          "[async_uws]: There is no sec-websocket-key in req headers" :=
  default_upgrade_missing_key_panics _ _ rfl

/-- Claim C2: for every call to `upgrade` in which the abort flag is already
set when it is read, no native upgrade call is dispatched (`loop_defer` is
not invoked with the upgrade closure), the just-inserted registry entry for
the handshake key is left in place for the close path, and the function
returns (`Except.ok`, no panic) after logging the condition. -/
theorem upgrade_aborted_no_dispatch (self : HttpResponse)
    (ws_key_string : String) (ws_protocol ws_extensions : Option String)
    (user_data : Option SharedDataStorage) (reg : WsPerSocketUserDataStorage)
    (hreg : self.per_socket_data_storage = some reg)
    (habort : self.is_aborted = true) :
    ∃ r : UpgradeResult,
      self.upgrade ws_key_string ws_protocol ws_extensions user_data
        = Except.ok r ∧
      r.dispatched = none ∧
      (∃ ud, List.lookup ws_key_string r.registry = some ud) ∧
      r.logged = ["[async_uws] Upgrade request is aborted"] := by
  simp only [HttpResponse.upgrade, hreg, habort, if_true]
  exact ⟨_, rfl, rfl, ⟨_, lookup_registryInsert reg ws_key_string _⟩, rfl⟩

/-- Claim C2, witness on an aborted concrete handle. -/
theorem upgrade_aborted_no_dispatch_witness :
    ∃ r : UpgradeResult,
      HttpResponse.upgrade ⟨some ⟨false⟩, ⟨0⟩, true, [], some [], some ⟨0⟩⟩
          "dGhlIHNhbXBsZSBub25jZQ==" none none none
        = Except.ok r ∧
      r.dispatched = none ∧
      (∃ ud, List.lookup "dGhlIHNhbXBsZSBub25jZQ==" r.registry = some ud) ∧
      r.logged = ["[async_uws] Upgrade request is aborted"] :=
  upgrade_aborted_no_dispatch _ _ none none none [] rfl rfl

/-- Claim C3: in every execution of `upgrade` (that does not panic on a
missing per-socket registry), the registry insertion of the entry keyed by
the handshake key happens strictly before the abort flag is read — the event
trace starts with the insertion and only then the abort load — and at the
point of the abort check the registry lookup for that key succeeds, whatever
the abort flag's value. -/
theorem upgrade_insert_before_abort_check (self : HttpResponse)
    (ws_key_string : String) (ws_protocol ws_extensions : Option String)
    (user_data : Option SharedDataStorage) (reg : WsPerSocketUserDataStorage)
    (hreg : self.per_socket_data_storage = some reg) :
    ∃ (r : UpgradeResult) (rest : List UpgradeEvent),
      self.upgrade ws_key_string ws_protocol ws_extensions user_data
        = Except.ok r ∧
      r.events = UpgradeEvent.insertEntry ws_key_string
        :: UpgradeEvent.readAbort self.is_aborted :: rest ∧
      (∃ ud, List.lookup ws_key_string r.registry = some ud ∧
        ud.id = ws_key_string) := by
  cases habort : self.is_aborted with
  | true =>
    simp only [HttpResponse.upgrade, hreg, habort, if_true]
    exact ⟨_, _, rfl, rfl, ⟨_, lookup_registryInsert reg ws_key_string _, rfl⟩⟩
  | false =>
    simp only [HttpResponse.upgrade, hreg, habort, Bool.false_eq_true,
      if_false]
    exact ⟨_, _, rfl, rfl, ⟨_, lookup_registryInsert reg ws_key_string _, rfl⟩⟩

/-- Claim C3, witness on a concurrently-aborted concrete handle. -/
theorem upgrade_insert_before_abort_check_witness :
    ∃ (r : UpgradeResult) (rest : List UpgradeEvent),
      HttpResponse.upgrade ⟨some ⟨false⟩, ⟨0⟩, true, [], some [], some ⟨0⟩⟩
          "k0" none none none
        = Except.ok r ∧
      r.events = UpgradeEvent.insertEntry "k0"
        :: UpgradeEvent.readAbort true :: rest ∧
      (∃ ud, List.lookup "k0" r.registry = some ud ∧ ud.id = "k0") :=
  upgrade_insert_before_abort_check _ _ none none none [] rfl

/-- Claim C4: a `ConnectionHandle` whose native handle has been consumed
(`native = none`) reports `has_responded() = true` unconditionally; one whose
native handle is still present reports whatever the native handle reports. -/
theorem has_responded_after_consumption (self : HttpResponse)
    (res : NativeResponse) :
    (self.native = none → self.has_responded = true) ∧
    (self.native = some res →
      self.has_responded = res.has_responded) := by
  constructor
  · intro h
    rw [HttpResponse.has_responded, h]
  · intro h
    rw [HttpResponse.has_responded, h]

/-- Claim C4, witness: a consumed handle reports `true`; a present native
handle that has not responded reports `false`. -/
theorem has_responded_after_consumption_witness :
    HttpResponse.has_responded ⟨none, ⟨0⟩, false, [], none, none⟩ = true ∧
    HttpResponse.has_responded
      ⟨some ⟨false⟩, ⟨0⟩, false, [], none, none⟩ = false :=
  ⟨(has_responded_after_consumption ⟨none, ⟨0⟩, false, [], none, none⟩
      ⟨false⟩).1 rfl,
   (has_responded_after_consumption ⟨some ⟨false⟩, ⟨0⟩, false, [], none, none⟩
      ⟨false⟩).2 rfl⟩

/-- Claim C5: on a handle whose native handle is absent (terminated), each of
`write_status`, `write_header` and `write_header_int` is a silent no-op: the
handle is returned unchanged, no native call is performed, and the function
returns normally (total, no panic and no error value). -/
theorem write_ops_noop_after_termination (self : HttpResponse)
    (h : self.native = none) (status key value : String) (n : Nat) :
    self.write_status status = (self, []) ∧
    self.write_header key value = (self, []) ∧
    self.write_header_int key n = (self, []) := by
  refine ⟨?_, ?_, ?_⟩ <;>
    simp [HttpResponse.write_status, HttpResponse.write_header,
      HttpResponse.write_header_int, h]

/-- Claim C5, witness on a concrete terminated handle. -/
theorem write_ops_noop_after_termination_witness :
    HttpResponse.write_status ⟨none, ⟨0⟩, false, [], none, none⟩ "404 Not Found"
      = (⟨none, ⟨0⟩, false, [], none, none⟩, []) ∧
    HttpResponse.write_header ⟨none, ⟨0⟩, false, [], none, none⟩
        "content-type" "text/plain"
      = (⟨none, ⟨0⟩, false, [], none, none⟩, []) ∧
    HttpResponse.write_header_int ⟨none, ⟨0⟩, false, [], none, none⟩
        "content-length" 12
      = (⟨none, ⟨0⟩, false, [], none, none⟩, []) :=
  write_ops_noop_after_termination _ rfl "404 Not Found" "content-type"
    "text/plain" 12

/-- Claim C6: `end(body, close_connection)` behaves identically for both
values of the abort flag — two runs on handles that differ only in
`is_aborted` defer the very same closure onto the very same loop. -/
theorem end_ignores_abort_flag (native : Option NativeResponse)
    (uws_loop : UwsLoop) (a1 a2 : Bool) (ds : SharedDataStorage)
    (ps : Option WsPerSocketUserDataStorage) (ctx : Option UpgradeContext)
    (body : Option String) (close_connection : Bool) :
    HttpResponse.end_response ⟨native, uws_loop, a1, ds, ps, ctx⟩ body
        close_connection =
      HttpResponse.end_response ⟨native, uws_loop, a2, ds, ps, ctx⟩ body
        close_connection :=
  rfl

/-- Claim C7 (spec-modelled storage): for every value family and every
sequence of insertions into an initially empty `TypedStorage`, a lookup for
type identity `t` returns the value of that type inserted last, and a lookup
for a type identity never inserted returns `none` (and the lookup is a total
function — no panic). -/
theorem typed_storage_last_insert_wins {V : Nat → Type}
    (ops : List (Sigma V)) (t : Nat) :
    TypedStorage.get (insertAll ([] : TypedStorage V) ops) t
      = lastOfType ops t ∧
    ((∀ x ∈ ops, x.1 ≠ t) →
      TypedStorage.get (insertAll ([] : TypedStorage V) ops) t = none) := by
  have h1 : TypedStorage.get (insertAll ([] : TypedStorage V) ops) t
      = lastOfType ops t := by
    rw [TypedStorage.get_insertAll]
    cases hl : lastOfType ops t <;> simp [TypedStorage.get]
  exact ⟨h1, fun h => by rw [h1, lastOfType_eq_none ops t h]⟩

/-- Claim C7, witness: after inserting type 0 twice (values 5 then 9) and
type 1 once, lookup of type 0 yields the later value 9 and lookup of the
never-inserted type 2 yields `none`. -/
theorem typed_storage_last_insert_wins_witness :
    TypedStorage.get
        (insertAll ([] : TypedStorage (fun _ => Nat)) [⟨0, 5⟩, ⟨1, 7⟩, ⟨0, 9⟩])
        0 = some 9 ∧
    TypedStorage.get
        (insertAll ([] : TypedStorage (fun _ => Nat)) [⟨0, 5⟩, ⟨1, 7⟩, ⟨0, 9⟩])
        2 = none :=
  ⟨(typed_storage_last_insert_wins [⟨0, 5⟩, ⟨1, 7⟩, ⟨0, 9⟩] 0).1,
   (typed_storage_last_insert_wins [⟨0, 5⟩, ⟨1, 7⟩, ⟨0, 9⟩] 2).2 (by decide)⟩

/-- Claim C8: whenever the mandatory `sec-websocket-key` header is present,
`default_upgrade` performs the upgrade from the three handshake headers
alone: it calls `upgrade` with the extracted key, the optional
`sec-websocket-protocol` and `sec-websocket-extensions` lookups (which are
`none` exactly when those headers are absent), and `user_data = none`. -/
theorem default_upgrade_uses_headers_only (req : HttpRequest)
    (res : HttpResponse) (key : String)
    (h : HttpRequest.get_header req "sec-websocket-key" = some key) :
    HttpResponse.default_upgrade req res =
      res.upgrade key
        (HttpRequest.get_header req "sec-websocket-protocol")
        (HttpRequest.get_header req "sec-websocket-extensions")
        none := by
  rw [HttpResponse.default_upgrade, h]

/-- Claim C8, witness: a request carrying only the mandatory header leads to
`upgrade` being called with both optional arguments `none` and no user
data. -/
theorem default_upgrade_uses_headers_only_witness :
    HttpResponse.default_upgrade ⟨[("sec-websocket-key", "k1")], "/ws"⟩
        ⟨some ⟨false⟩, ⟨2⟩, false, [], some [], some ⟨2⟩⟩ =
      HttpResponse.upgrade ⟨some ⟨false⟩, ⟨2⟩, false, [], some [], some ⟨2⟩⟩
        "k1" none none none :=
  default_upgrade_uses_headers_only _ _ "k1" rfl

/-- Claim C9: every handle built by `new` has `native = some`, so the
`take().unwrap()` inside the closure deferred by `end` cannot fail: the
deferred closure extracts that native handle exactly once and ends it with
the given arguments (`end` itself consumes the instance, so it is callable
at most once by the Rust ownership discipline the embedding mirrors by
determinism of `end_response`). -/
theorem new_end_unwrap_safe (res : NativeResponse) (uws_loop : UwsLoop)
    (is_aborted : Bool) (ds : SharedDataStorage)
    (ps : Option WsPerSocketUserDataStorage) (ctx : Option UpgradeContext)
    (body : Option String) (close_connection : Bool) :
    (HttpResponse.new res uws_loop is_aborted ds ps ctx).native = some res ∧
    (HttpResponse.new res uws_loop is_aborted ds ps ctx).end_response body
        close_connection =
      { uws_loop := uws_loop
        callbackRun := Except.ok (res, body, close_connection) } :=
  ⟨rfl, rfl⟩

/-- Claim C10: every `PerSocketState` constructed by a non-panicking run of
`upgrade` satisfies at creation: `is_open = true`, its `id` equals the
handshake key, it is registered in the per-socket registry under that key,
and when no custom user data is supplied its custom data storage is the
empty default. -/
theorem upgrade_per_socket_state_invariants (self : HttpResponse)
    (ws_key_string : String) (ws_protocol ws_extensions : Option String)
    (user_data : Option SharedDataStorage) (reg : WsPerSocketUserDataStorage)
    (hreg : self.per_socket_data_storage = some reg) :
    ∃ (r : UpgradeResult) (ud : WsPerSocketUserData),
      self.upgrade ws_key_string ws_protocol ws_extensions user_data
        = Except.ok r ∧
      List.lookup ws_key_string r.registry = some ud ∧
      ud.is_open = true ∧
      ud.id = ws_key_string ∧
      (user_data = none → ud.custom_user_data = ([] : SharedDataStorage)) := by
  cases habort : self.is_aborted with
  | true =>
    simp only [HttpResponse.upgrade, hreg, habort, if_true]
    refine ⟨_, _, rfl, lookup_registryInsert reg ws_key_string _, rfl, rfl, ?_⟩
    rintro rfl
    rfl
  | false =>
    simp only [HttpResponse.upgrade, hreg, habort, Bool.false_eq_true,
      if_false]
    refine ⟨_, _, rfl, lookup_registryInsert reg ws_key_string _, rfl, rfl, ?_⟩
    rintro rfl
    rfl

/-- Claim C10, witness on a concrete handle with no custom user data. -/
theorem upgrade_per_socket_state_invariants_witness :
    ∃ (r : UpgradeResult) (ud : WsPerSocketUserData),
      HttpResponse.upgrade ⟨some ⟨false⟩, ⟨0⟩, false, [], some [], some ⟨0⟩⟩
          "k2" none none none
        = Except.ok r ∧
      List.lookup "k2" r.registry = some ud ∧
      ud.is_open = true ∧
      ud.id = "k2" ∧
      (none = (none : Option SharedDataStorage) →
        ud.custom_user_data = ([] : SharedDataStorage)) :=
  upgrade_per_socket_state_invariants _ _ none none none [] rfl

end AsyncUws
